import Mathlib

/-!
Verification of the session/event-interpretation and preference layer of the
`froncort_adk` SQL-assistant service (source: `src/app.py`).

The shallow embedding below mirrors `app.py`:
* engine messages are records with optional `tool_calls`, `content` and `name`
  attributes (an absent attribute and a `None` attribute behave identically at
  every use site in the source, so both are `none` here);
* the per-turn event loop of `execute_query` (lines 122-137) is the fold
  `stepMsg`;
* the WebSocket handler (lines 294-384) is the loop `wsLoop` over inbound
  frames, each well-formed inbound frame carrying the engine run it triggers;
* the preference endpoints are modelled over a list-of-records store
  (`delete_preferences` is implemented directly in `app.py`; the upsert and
  read helpers live in the absent `sql_agent` module and are modelled from the
  spec, as marked on their doc comments).
-/

namespace FroncortAdk

/-- One element of a message's `tool_calls` list.  `name` models
`tool_call.get('name')` (`none` = key absent), `args` models
`tool_call.get('args', {})` as an association list. -/
structure ToolCall where
  name : Option String
  args : Option (List (String × String))
deriving DecidableEq

/-- The last message of one streamed event (`event["messages"][-1]`).
`content = none` covers both a missing `content` attribute and non-string
content (the source guards with `isinstance(msg.content, str)`);
`name = none` covers a missing or `None` `name` attribute. -/
structure Msg where
  tool_calls : List ToolCall
  content : Option String
  name : Option String
deriving DecidableEq

/-- The designated SQL tool name checked throughout `app.py`. -/
def sqlTool : String := "sql_db_query"

/-- `tool_call.get('args', {}).get('query', '')` from `app.py`. -/
def ToolCall.argQuery (tc : ToolCall) : String :=
  ((tc.args.getD []).lookup "query").getD ""

/-- The three accumulator slots of the `execute_query` event loop. -/
structure Acc where
  summary : String
  sql_query : Option String
  raw_result : Option String
deriving DecidableEq

/-- `summary = ""`, `sql_query = None`, `raw_result = None` (lines 118-120). -/
def initAcc : Acc := { summary := "", sql_query := none, raw_result := none }

/-- Body of the inner `for tool_call in msg.tool_calls` loop (lines 128-130). -/
def stepToolCall (a : Acc) (tc : ToolCall) : Acc :=
  if tc.name = some sqlTool then { a with sql_query := some tc.argQuery } else a

/-- Body of the `for event in events` loop of `execute_query` (lines 122-137):
first the tool-call scan, then the content dispatch on the message's `name`
(`msg.name == 'sql_db_query'` → raw result; absent/falsy name → summary). -/
def stepMsg (a : Acc) (m : Msg) : Acc :=
  let a1 := m.tool_calls.foldl stepToolCall a
  match m.content with
  | none => a1
  | some c =>
    if m.name = some sqlTool then { a1 with raw_result := some c }
    else if m.name.getD "" = "" then { a1 with summary := c }
    else a1

/-- The whole event loop of `execute_query` run from the initial slots. -/
def interpret (events : List Msg) : Acc := events.foldl stepMsg initAcc

/-- All designated-tool invocations of a turn, in observation order. -/
def sqlInvocations (events : List Msg) : List ToolCall :=
  (events.flatMap Msg.tool_calls).filter (fun tc => tc.name = some sqlTool)

/-- Contents of the summary-eligible messages (string content, no originating
tool name) of a turn, in observation order. -/
def summaryContents (events : List Msg) : List String :=
  events.filterMap (fun m => if m.name.getD "" = "" then m.content else none)

/-- Contents of the designated-tool result messages of a turn. -/
def rawContents (events : List Msg) : List String :=
  events.filterMap (fun m => if m.name = some sqlTool then m.content else none)

theorem stepToolCall_summary (a : Acc) (tc : ToolCall) :
    (stepToolCall a tc).summary = a.summary := by
  unfold stepToolCall; split <;> rfl

theorem stepToolCall_raw (a : Acc) (tc : ToolCall) :
    (stepToolCall a tc).raw_result = a.raw_result := by
  unfold stepToolCall; split <;> rfl

theorem foldl_stepToolCall_summary (tcs : List ToolCall) (a : Acc) :
    (tcs.foldl stepToolCall a).summary = a.summary := by
  induction tcs generalizing a with
  | nil => rfl
  | cons tc tcs ih => rw [List.foldl_cons, ih, stepToolCall_summary]

theorem foldl_stepToolCall_raw (tcs : List ToolCall) (a : Acc) :
    (tcs.foldl stepToolCall a).raw_result = a.raw_result := by
  induction tcs generalizing a with
  | nil => rfl
  | cons tc tcs ih => rw [List.foldl_cons, ih, stepToolCall_raw]

theorem foldl_stepToolCall_sql (tcs : List ToolCall) (a : Acc) :
    (tcs.foldl stepToolCall a).sql_query =
      match (tcs.filter (fun tc => tc.name = some sqlTool)).getLast? with
      | none => a.sql_query
      | some tc => some tc.argQuery := by
  induction tcs using List.reverseRecOn with
  | nil => rfl
  | append_singleton l tc ih =>
    rw [List.foldl_append, List.filter_append]
    by_cases h : tc.name = some sqlTool
    · have hf : List.filter (fun tc => decide (tc.name = some sqlTool)) [tc] = [tc] := by
        simp [List.filter, h]
      rw [hf, List.getLast?_concat]
      simp [stepToolCall, h]
    · have hf : List.filter (fun tc => decide (tc.name = some sqlTool)) [tc] = [] := by
        simp [List.filter, h]
      rw [hf, List.append_nil]
      simpa [stepToolCall, h] using ih

theorem stepMsg_sql (a : Acc) (m : Msg) :
    (stepMsg a m).sql_query = (m.tool_calls.foldl stepToolCall a).sql_query := by
  unfold stepMsg
  cases m.content with
  | none => rfl
  | some c => dsimp only; split <;> [rfl; (split <;> rfl)]

theorem stepMsg_summary (a : Acc) (m : Msg) :
    (stepMsg a m).summary =
      match (if m.name.getD "" = "" then m.content else none) with
      | none => a.summary
      | some c => c := by
  unfold stepMsg
  cases hc : m.content with
  | none =>
    simp [foldl_stepToolCall_summary, ite_self]
  | some c =>
    dsimp only
    by_cases h1 : m.name = some sqlTool
    · have h2 : ¬ m.name.getD "" = "" := by simp [h1, sqlTool]
      have h3 : (if m.name.getD "" = "" then (some c : Option String) else none) = none :=
        if_neg h2
      rw [h3]
      simp [h1, foldl_stepToolCall_summary]
    · by_cases h2 : m.name.getD "" = ""
      · simp [h1, h2]
      · simp [h1, h2, foldl_stepToolCall_summary]

theorem stepMsg_raw (a : Acc) (m : Msg) :
    (stepMsg a m).raw_result =
      match (if m.name = some sqlTool then m.content else none) with
      | none => a.raw_result
      | some c => some c := by
  unfold stepMsg
  cases hc : m.content with
  | none =>
    simp [foldl_stepToolCall_raw, ite_self]
  | some c =>
    dsimp only
    by_cases h1 : m.name = some sqlTool
    · simp [h1]
    · by_cases h2 : m.name.getD "" = ""
      · simp [h1, h2, foldl_stepToolCall_raw]
      · simp [h1, h2, foldl_stepToolCall_raw]

theorem foldl_stepMsg_sql (events : List Msg) (a : Acc) :
    (events.foldl stepMsg a).sql_query =
      match (sqlInvocations events).getLast? with
      | none => a.sql_query
      | some tc => some tc.argQuery := by
  induction events using List.reverseRecOn with
  | nil => rfl
  | append_singleton l m ih =>
    have hsplit : sqlInvocations (l ++ [m]) =
        sqlInvocations l ++ m.tool_calls.filter (fun tc => tc.name = some sqlTool) := by
      simp [sqlInvocations, List.flatMap_append]
    rw [List.foldl_append, List.foldl_cons, List.foldl_nil, hsplit,
      stepMsg_sql, foldl_stepToolCall_sql]
    cases hf : m.tool_calls.filter (fun tc => tc.name = some sqlTool) with
    | nil => rw [List.append_nil]; exact ih
    | cons x xs =>
      rw [List.getLast?_append_of_ne_nil _ (by simp),
        List.getLast?_eq_getLast (x :: xs) (by simp)]

theorem foldl_stepMsg_summary (events : List Msg) (a : Acc) :
    (events.foldl stepMsg a).summary =
      match (summaryContents events).getLast? with
      | none => a.summary
      | some c => c := by
  induction events using List.reverseRecOn with
  | nil => rfl
  | append_singleton l m ih =>
    rw [List.foldl_append, List.foldl_cons, List.foldl_nil, stepMsg_summary]
    have happ : summaryContents (l ++ [m]) = summaryContents l ++ summaryContents [m] := by
      simp [summaryContents]
    rw [happ]
    cases hc : (if m.name.getD "" = "" then m.content else none) with
    | none =>
      have h1 : summaryContents [m] = [] := by
        simp only [summaryContents, List.filterMap_cons, List.filterMap_nil, hc]
      rw [h1, List.append_nil]; exact ih
    | some c =>
      have h1 : summaryContents [m] = [c] := by
        simp only [summaryContents, List.filterMap_cons, List.filterMap_nil, hc]
      rw [h1, List.getLast?_concat]

theorem foldl_stepMsg_raw (events : List Msg) (a : Acc) :
    (events.foldl stepMsg a).raw_result =
      match (rawContents events).getLast? with
      | none => a.raw_result
      | some c => some c := by
  induction events using List.reverseRecOn with
  | nil => rfl
  | append_singleton l m ih =>
    rw [List.foldl_append, List.foldl_cons, List.foldl_nil, stepMsg_raw]
    have happ : rawContents (l ++ [m]) = rawContents l ++ rawContents [m] := by
      simp [rawContents]
    rw [happ]
    cases hc : (if m.name = some sqlTool then m.content else none) with
    | none =>
      have h1 : rawContents [m] = [] := by
        simp only [rawContents, List.filterMap_cons, List.filterMap_nil, hc]
      rw [h1, List.append_nil]; exact ih
    | some c =>
      have h1 : rawContents [m] = [c] := by
        simp only [rawContents, List.filterMap_cons, List.filterMap_nil, hc]
      rw [h1, List.getLast?_concat]

theorem interpret_sql (events : List Msg) :
    (interpret events).sql_query =
      match (sqlInvocations events).getLast? with
      | none => none
      | some tc => some tc.argQuery :=
  foldl_stepMsg_sql events initAcc

theorem interpret_summary (events : List Msg) :
    (interpret events).summary = ((summaryContents events).getLast?).getD "" := by
  rw [interpret, foldl_stepMsg_summary]
  cases (summaryContents events).getLast? <;> rfl

theorem interpret_raw (events : List Msg) :
    (interpret events).raw_result =
      match (rawContents events).getLast? with
      | none => none
      | some c => some c :=
  foldl_stepMsg_raw events initAcc

/-- Request body of `POST /query`.  In the source, `user_id` is declared
`Optional[str] = "default_user"`, so an omitted field yields the fixed
default. -/
structure QueryRequest where
  query : String
  user_id : String
deriving DecidableEq

/-- The fixed default user identifier of `QueryRequest`. -/
def defaultUserId : String := "default_user"

/-- Builds a `QueryRequest` from a body in which the `user_id` field may be
absent (`none` models an omitted field, as in line 47 of the source). -/
def QueryRequest.ofBody (query : String) (userId : Option String) : QueryRequest :=
  { query := query, user_id := userId.getD defaultUserId }

/-- Response body of `POST /query` (lines 49-56). -/
structure QueryResponse where
  user_id : String
  query : String
  summary : String
  sql_query : Option String
  raw_result : Option String
  timestamp : String
  model : String
deriving DecidableEq

/-- `f"[User ID: {user_id}]\n{query}"` (lines 108 and 319). -/
def enhancedInput (uid query : String) : String :=
  "[User ID: " ++ uid ++ "]\n" ++ query

/-- The fixed fallback summary (line 142). -/
def fallbackSummary : String := "Query processed successfully"

/-- One executed turn of `execute_query`, keeping the engine-facing values
(`thread_id` of the session config at line 107, the engine input of line 108)
alongside the response returned to the caller. -/
structure TurnTrace where
  thread_id : String
  engine_input : String
  response : QueryResponse
deriving DecidableEq

/-- The `POST /query` handler (lines 97-146) on its success path, with the
engine as an explicit capability from prompt text to the per-event last
messages of its stream. -/
def execute_query (engine : String → List Msg) (request : QueryRequest)
    (now : String) : TurnTrace :=
  let input := enhancedInput request.user_id request.query
  let acc := interpret (engine input)
  { thread_id := request.user_id
    engine_input := input
    response :=
      { user_id := request.user_id
        query := request.query
        summary := if acc.summary = "" then fallbackSummary else acc.summary
        sql_query := acc.sql_query
        raw_result := acc.raw_result
        timestamp := now
        model := "Gemini 2.0 Flash" } }

/-- Outbound WebSocket frames (lines 303-371).  The source serialises the
empty-query error as `{"error": ...}` and the two other error sites as
`{"status": "error", "error": ...}`; both are error frames here, the exact
JSON key being below this abstraction. -/
inductive Frame where
  | processing (user_id query : String)
  | tool_call (tool : Option String) (args : List (String × String))
  | raw_result (content : String)
  | message (content : String)
  | completed (sql_query : Option String) (timestamp : String)
  | error (message : String)
deriving DecidableEq

/-- Frames sent for one streamed event of the WebSocket loop (lines 331-359):
a `tool_call` frame per tool call, then a `raw_result` frame for a
designated-tool result message or a `message` frame for an unnamed one. -/
def msgFrames (m : Msg) : List Frame :=
  (m.tool_calls.map (fun tc => Frame.tool_call tc.name (tc.args.getD []))) ++
    (match m.content with
     | none => []
     | some c =>
       if m.name = some sqlTool then [Frame.raw_result c]
       else if m.name.getD "" = "" then [Frame.message c]
       else [])

/-- One engine invocation as the WebSocket loop observes it: the events whose
frames were fully emitted, and `failure = some e` when the invocation raised
an exception after them (caught at lines 368-372). -/
structure EngineRun where
  events : List Msg
  failure : Option String
deriving DecidableEq

/-- The single terminal frame of one turn: `completed` with the folded SQL
text (lines 362-366) on success, `error` (lines 369-372) when the invocation
raised. -/
def terminalFrame (ts : String) (run : EngineRun) : Frame :=
  match run.failure with
  | none => Frame.completed (interpret run.events).sql_query ts
  | some e => Frame.error e

/-- All frames of one non-empty-query turn (lines 309-372): the `processing`
acknowledgement, the per-event frames in observation order, then the single
terminal frame. -/
def turnFrames (uid query ts : String) (run : EngineRun) : List Frame :=
  Frame.processing uid query :: (run.events.flatMap msgFrames ++ [terminalFrame ts run])

/-- One inbound WebSocket text message: `malformed` when `json.loads` (or the
dict access) raises at lines 300-301, otherwise the parsed optional `query`
field together with the engine run it would trigger. -/
inductive Inbound where
  | malformed (err : String)
  | frame (query : Option String) (run : EngineRun)
deriving DecidableEq

/-- The error message of the empty-query short-circuit (line 305). -/
def errQueryRequired : String := "Query is required"

/-- The per-connection WebSocket loop (lines 294-384) over the inbound
messages of one connection.  A malformed inbound message escapes the inner
per-turn handler, is caught by the outermost handler (lines 376-384), which
sends one generic error frame, and the loop ends; an empty or missing query
short-circuits with an error frame and the loop continues. -/
def wsLoop (uid ts : String) : List Inbound → List Frame
  | [] => []
  | Inbound.malformed e :: _ => [Frame.error e]
  | Inbound.frame q run :: rest =>
    (if q.getD "" = "" then [Frame.error errQueryRequired]
     else turnFrames uid (q.getD "") ts run) ++ wsLoop uid ts rest

/-- The engine inputs actually invoked by the WebSocket loop, in order. -/
def engineCalls (uid : String) : List Inbound → List String
  | [] => []
  | Inbound.malformed _ :: _ => []
  | Inbound.frame q _ :: rest =>
    (if q.getD "" = "" then [] else [enhancedInput uid (q.getD "")]) ++
      engineCalls uid rest

/-- The non-terminal frame kinds a turn may emit between `processing` and its
terminal frame. -/
def isMidFrame : Frame → Bool
  | Frame.tool_call _ _ => true
  | Frame.raw_result _ => true
  | Frame.message _ => true
  | _ => false

/-- Terminal frame kinds of one turn. -/
def isTerminal : Frame → Bool
  | Frame.completed _ _ => true
  | Frame.error _ => true
  | _ => false

theorem msgFrames_mid (m : Msg) : ∀ f ∈ msgFrames m, isMidFrame f = true := by
  intro f hf
  unfold msgFrames at hf
  rcases List.mem_append.mp hf with h | h
  · obtain ⟨tc, _, rfl⟩ := List.mem_map.mp h
    rfl
  · cases hc : m.content with
    | none => rw [hc] at h; cases h
    | some c =>
      rw [hc] at h
      dsimp only at h
      split at h
      · rw [List.mem_singleton] at h; subst h; rfl
      · split at h
        · rw [List.mem_singleton] at h; subst h; rfl
        · cases h

theorem mid_not_terminal (f : Frame) (h : isMidFrame f = true) :
    isTerminal f = false := by
  cases f <;> first | rfl | cases h

/-- One row of the `user_preferences` table. -/
structure PrefRecord where
  user_id : String
  priority_key : String
  priority_value : String
  context : Option String
  feedback_text : Option String
  source_query : Option String
  updated_at : String
deriving DecidableEq

/-- The preference store as the list of its live rows. -/
abbrev PrefStore := List PrefRecord

/-- Number of live rows for one user. -/
def countForUser (store : PrefStore) (uid : String) : Nat :=
  (store.filter (fun r => r.user_id = uid)).length

/-- Response body of `DELETE /preferences/{user_id}` (lines 222-226). -/
structure DeleteResponse where
  message : String
  user_id : String
  deleted_count : Nat
deriving DecidableEq

/-- The `DELETE /preferences/{user_id}` handler (lines 204-228): the SQL
`DELETE FROM user_preferences WHERE user_id = ?` removes every row of the
user, and `cursor.rowcount` reports how many were removed. -/
def delete_preferences (store : PrefStore) (uid : String) :
    PrefStore × DeleteResponse :=
  (store.filter (fun r => ¬ r.user_id = uid),
   { message := "Deleted " ++ toString (countForUser store uid) ++
       " preferences for user " ++ uid
     user_id := uid
     deleted_count := countForUser store uid })

/-- Failure kinds of the preference store surface. -/
inductive PrefError where
  | invalidArgument (message : String)
  | storageFailure (message : String)
deriving DecidableEq

/-- Modelled from the spec: `update_user_priority` is imported from the
`sql_agent` module, which is not among the sources.  Per spec §4.1 the upsert
requires user, key and value non-empty — malformed input fails as
`InvalidArgument` before any I/O — and otherwise creates or overwrites the
(user, key) record, stamping the current time. -/
def update_user_priority (store : PrefStore) (uid key value : String)
    (context feedback source : Option String) (now : String) :
    Except PrefError (PrefStore × String) :=
  if uid = "" ∨ key = "" ∨ value = "" then
    Except.error (PrefError.invalidArgument "user, key and value must be non-empty")
  else
    let record : PrefRecord :=
      { user_id := uid, priority_key := key, priority_value := value,
        context := context, feedback_text := feedback, source_query := source,
        updated_at := now }
    if store.any (fun r => r.user_id = uid ∧ r.priority_key = key) then
      Except.ok
        (store.map (fun r =>
          if r.user_id = uid ∧ r.priority_key = key then record else r),
         "Preference saved")
    else
      Except.ok (store ++ [record], "Preference saved")

/-- Modelled from the spec: `get_user_priorities` is imported from the
`sql_agent` module, which is not among the sources.  Per spec §4.1
`listForUser` returns all live keys of the user with their values, without
the write-side provenance. -/
def get_user_priorities (store : PrefStore) (uid : String) :
    List (String × String) :=
  (store.filter (fun r => r.user_id = uid)).map
    (fun r => (r.priority_key, r.priority_value))

/-- Request body of `POST /preferences` (lines 58-64). -/
structure PreferenceRequest where
  user_id : String
  priority_key : String
  priority_value : String
  context : Option String
  feedback_text : Option String
  source_query : Option String
deriving DecidableEq

/-- Response body of `POST /preferences` (lines 66-69). -/
structure PreferenceResponse where
  message : String
  user_id : String
  preferences : List (String × String)
deriving DecidableEq

/-- The `POST /preferences` handler (lines 170-202): run the upsert, then
read the user's updated mapping back. -/
def save_preference (store : PrefStore) (request : PreferenceRequest)
    (now : String) : Except PrefError (PrefStore × PreferenceResponse) :=
  match update_user_priority store request.user_id request.priority_key
      request.priority_value request.context request.feedback_text
      request.source_query now with
  | Except.error e => Except.error e
  | Except.ok (store2, result) =>
    Except.ok (store2,
      { message := result
        user_id := request.user_id
        preferences := get_user_priorities store2 request.user_id })

/-- The store as the caller observes it after `save_preference`: unchanged
when the call failed. -/
def storeAfterSave (store : PrefStore) (request : PreferenceRequest)
    (now : String) : PrefStore :=
  match save_preference store request now with
  | Except.error _ => store
  | Except.ok (store2, _) => store2

/-- The mutable state of the process that `POST /clear` touches: the
process-wide engine instance (`sql_agent._global_agent`, opaque here) and,
for the frame condition, the preference store. -/
structure AppState where
  global_agent : Option String
  preferences : PrefStore
deriving DecidableEq

/-- Response body of `POST /clear` (lines 276-280). -/
structure ClearResponse where
  message : String
  new_user_id : String
  timestamp : String
deriving DecidableEq

/-- The `POST /clear` handler (lines 260-282): sets the global agent to
`None` regardless of the supplied user id, and answers with
`request.user_id or str(uuid.uuid4())` — Python's `or`, under which both a
missing user id and an empty-string one fall through to the fresh uuid
(`freshId` here). -/
def clear_conversation (state : AppState) (userId : Option String)
    (freshId now : String) : AppState × ClearResponse :=
  ({ state with global_agent := none },
   { message := "Conversation memory cleared"
     new_user_id := if userId.getD "" = "" then freshId else userId.getD ""
     timestamp := now })

theorem execute_query_summary (engine : String → List Msg) (request : QueryRequest)
    (now : String) :
    (execute_query engine request now).response.summary =
      (if (interpret (engine (enhancedInput request.user_id request.query))).summary = ""
       then fallbackSummary
       else (interpret (engine (enhancedInput request.user_id request.query))).summary) :=
  rfl

theorem execute_query_sql (engine : String → List Msg) (request : QueryRequest)
    (now : String) :
    (execute_query engine request now).response.sql_query =
      (interpret (engine (enhancedInput request.user_id request.query))).sql_query :=
  rfl

theorem execute_query_raw (engine : String → List Msg) (request : QueryRequest)
    (now : String) :
    (execute_query engine request now).response.raw_result =
      (interpret (engine (enhancedInput request.user_id request.query))).raw_result :=
  rfl

theorem terminalFrame_isTerminal (ts : String) (run : EngineRun) :
    isTerminal (terminalFrame ts run) = true := by
  unfold terminalFrame
  cases run.failure <;> rfl

/-- C1: in a turn whose event stream holds at least two invocations of the
designated SQL tool, the outcome's extracted SQL text is the `query` argument
of the latest such invocation (last-wins). -/
theorem sql_text_last_invocation_wins (engine : String → List Msg)
    (request : QueryRequest) (now : String)
    (h : 2 ≤ (sqlInvocations (engine (enhancedInput request.user_id request.query))).length) :
    ∃ tc,
      (sqlInvocations (engine (enhancedInput request.user_id request.query))).getLast? =
        some tc ∧
      (execute_query engine request now).response.sql_query = some tc.argQuery := by
  have hne : sqlInvocations (engine (enhancedInput request.user_id request.query)) ≠ [] := by
    intro hnil
    rw [hnil] at h
    simp at h
  obtain ⟨tc, htc⟩ :
      ∃ tc, (sqlInvocations (engine (enhancedInput request.user_id request.query))).getLast? =
        some tc := by
    cases hl : sqlInvocations (engine (enhancedInput request.user_id request.query)) with
    | nil => exact absurd hl hne
    | cons x xs => exact ⟨(x :: xs).getLast (by simp), List.getLast?_eq_getLast _ (by simp)⟩
  refine ⟨tc, htc, ?_⟩
  rw [execute_query_sql, interpret_sql, htc]

/-- Witness for C1: with invocations `SELECT 1` then `SELECT 2`, the
extracted SQL text is `SELECT 2`. -/
theorem sql_text_last_invocation_wins_witness :
    2 ≤ (sqlInvocations ((fun _ : String =>
        [({ tool_calls :=
              [{ name := some "sql_db_query", args := some [("query", "SELECT 1")] },
               { name := some "sql_db_query", args := some [("query", "SELECT 2")] }],
            content := none, name := none } : Msg)]) (enhancedInput "u1" "q"))).length ∧
    (execute_query (fun _ : String =>
        [({ tool_calls :=
              [{ name := some "sql_db_query", args := some [("query", "SELECT 1")] },
               { name := some "sql_db_query", args := some [("query", "SELECT 2")] }],
            content := none, name := none } : Msg)])
      { query := "q", user_id := "u1" } "t0").response.sql_query = some "SELECT 2" := by
  refine ⟨by decide, ?_⟩
  obtain ⟨tc, htc, hsql⟩ := sql_text_last_invocation_wins
    (fun _ : String =>
        [({ tool_calls :=
              [{ name := some "sql_db_query", args := some [("query", "SELECT 1")] },
               { name := some "sql_db_query", args := some [("query", "SELECT 2")] }],
            content := none, name := none } : Msg)])
    { query := "q", user_id := "u1" } "t0" (by decide)
  have hval :
      (sqlInvocations ((fun _ : String =>
        [({ tool_calls :=
              [{ name := some "sql_db_query", args := some [("query", "SELECT 1")] },
               { name := some "sql_db_query", args := some [("query", "SELECT 2")] }],
            content := none, name := none } : Msg)]) (enhancedInput "u1" "q"))).getLast? =
      some { name := some "sql_db_query", args := some [("query", "SELECT 2")] } := by
    decide
  rw [hval] at htc
  rw [hsql, ← Option.some.inj htc]
  decide

/-- C2 counterexample: a turn containing one summary-eligible `Message` whose
content is the empty string.  The claim says the summary then equals that
content (the empty string); the handler instead substitutes the fallback,
because Python's `summary or "Query processed successfully"` treats an
explicitly recorded empty summary like one never set. -/
theorem summary_empty_content_fallback_cex :
    (summaryContents
        [({ tool_calls := [], content := some "", name := none } : Msg)]).getLast? =
      some "" ∧
    ¬ (execute_query
        (fun _ : String => [({ tool_calls := [], content := some "", name := none } : Msg)])
        { query := "q", user_id := "u1" } "t0").response.summary = "" := by
  exact ⟨by decide, by decide⟩

/-- C2 (amended): the outcome summary is the fallback string when the turn has
no summary-eligible `Message` or when the last such message's content is the
empty string, and otherwise the content of the last such message; SQL text and
raw result stay `none` when no designated-tool invocation or result occurred. -/
theorem summary_fallback_amended (engine : String → List Msg)
    (request : QueryRequest) (now : String) :
    ((execute_query engine request now).response.summary =
      (if ((summaryContents (engine (enhancedInput request.user_id request.query))).getLast?).getD "" = ""
       then fallbackSummary
       else ((summaryContents (engine (enhancedInput request.user_id request.query))).getLast?).getD "")) ∧
    (sqlInvocations (engine (enhancedInput request.user_id request.query)) = [] →
      (execute_query engine request now).response.sql_query = none) ∧
    (rawContents (engine (enhancedInput request.user_id request.query)) = [] →
      (execute_query engine request now).response.raw_result = none) := by
  refine ⟨?_, ?_, ?_⟩
  · rw [execute_query_summary, interpret_summary]
  · intro h
    rw [execute_query_sql, interpret_sql, h]
    rfl
  · intro h
    rw [execute_query_raw, interpret_raw, h]
    rfl

/-- Witness for C2 (amended): a purely conversational turn ending in the
message `All done` yields that summary with no SQL text and no raw result. -/
theorem summary_fallback_amended_witness :
    (execute_query
        (fun _ : String => [({ tool_calls := [], content := some "All done", name := none } : Msg)])
        { query := "hello", user_id := "u1" } "t0").response.summary = "All done" ∧
    (execute_query
        (fun _ : String => [({ tool_calls := [], content := some "All done", name := none } : Msg)])
        { query := "hello", user_id := "u1" } "t0").response.sql_query = none ∧
    (execute_query
        (fun _ : String => [({ tool_calls := [], content := some "All done", name := none } : Msg)])
        { query := "hello", user_id := "u1" } "t0").response.raw_result = none := by
  have h := summary_fallback_amended
    (fun _ : String => [({ tool_calls := [], content := some "All done", name := none } : Msg)])
    { query := "hello", user_id := "u1" } "t0"
  refine ⟨?_, h.2.1 (by decide), h.2.2 (by decide)⟩
  rw [h.1]
  decide

/-- C8: the orchestrator invokes the engine with the utterance textually
prefixed by the user identifier, while the outcome returned to the caller
carries the original unprefixed utterance. -/
theorem engine_input_prefixed (engine : String → List Msg)
    (request : QueryRequest) (now : String) :
    (execute_query engine request now).engine_input =
      "[User ID: " ++ request.user_id ++ "]\n" ++ request.query ∧
    (execute_query engine request now).response.query = request.query :=
  ⟨rfl, rfl⟩

/-- C10: a request body that omits the user identifier defaults it to the
fixed string `default_user`; the turn runs on that shared thread and the
outcome reports `default_user` as its user id. -/
theorem default_user_id_applied (query : String) (engine : String → List Msg)
    (now : String) :
    (QueryRequest.ofBody query none).user_id = defaultUserId ∧
    (execute_query engine (QueryRequest.ofBody query none) now).thread_id = defaultUserId ∧
    (execute_query engine (QueryRequest.ofBody query none) now).response.user_id =
      defaultUserId :=
  ⟨rfl, rfl, rfl⟩

theorem wsLoop_malformed (uid ts e : String) (rest : List Inbound) :
    wsLoop uid ts (Inbound.malformed e :: rest) = [Frame.error e] := rfl

theorem wsLoop_frame (uid ts : String) (q : Option String) (run : EngineRun)
    (rest : List Inbound) :
    wsLoop uid ts (Inbound.frame q run :: rest) =
      (if q.getD "" = "" then [Frame.error errQueryRequired]
       else turnFrames uid (q.getD "") ts run) ++ wsLoop uid ts rest := rfl

theorem engineCalls_frame (uid : String) (q : Option String) (run : EngineRun)
    (rest : List Inbound) :
    engineCalls uid (Inbound.frame q run :: rest) =
      (if q.getD "" = "" then [] else [enhancedInput uid (q.getD "")]) ++
        engineCalls uid rest := rfl

/-- C3: a non-empty utterance yields exactly the frames `processing`, then
zero or more of {`tool_call`, `raw_result`, `message`} in observation order,
then exactly one terminal frame — `completed` with the extracted SQL text and
timestamp on success, `error` on failure — and never more than one terminal
frame. -/
theorem streaming_frame_order (uid ts : String) (q : Option String)
    (run : EngineRun) (rest : List Inbound) (h : ¬ q.getD "" = "") :
    wsLoop uid ts (Inbound.frame q run :: rest) =
      turnFrames uid (q.getD "") ts run ++ wsLoop uid ts rest ∧
    ∃ mid term,
      turnFrames uid (q.getD "") ts run =
        Frame.processing uid (q.getD "") :: (mid ++ [term]) ∧
      (∀ f ∈ mid, isMidFrame f = true) ∧
      isTerminal term = true ∧
      (run.failure = none →
        term = Frame.completed (interpret run.events).sql_query ts) ∧
      (∀ e, run.failure = some e → term = Frame.error e) ∧
      (Frame.processing uid (q.getD "") :: (mid ++ [term])).countP isTerminal = 1 := by
  constructor
  · rw [wsLoop_frame, if_neg h]
  · refine ⟨run.events.flatMap msgFrames, terminalFrame ts run, rfl, ?_, ?_, ?_, ?_, ?_⟩
    · intro f hf
      obtain ⟨m, hm, hfm⟩ := List.mem_flatMap.mp hf
      exact msgFrames_mid m f hfm
    · exact terminalFrame_isTerminal ts run
    · intro h0
      unfold terminalFrame
      rw [h0]
    · intro e he
      unfold terminalFrame
      rw [he]
    · have hmid0 : (run.events.flatMap msgFrames).countP isTerminal = 0 := by
        rw [List.countP_eq_zero]
        intro f hf
        obtain ⟨m, hm, hfm⟩ := List.mem_flatMap.mp hf
        simp [mid_not_terminal f (msgFrames_mid m f hfm)]
      rw [List.countP_cons, List.countP_append, hmid0, List.countP_cons, List.countP_nil,
        terminalFrame_isTerminal]
      rfl

/-- The engine run of the C3 witness: one non-SQL tool call, then a final
unnamed message. -/
def runListTables : EngineRun :=
  { events :=
      [{ tool_calls := [{ name := some "sql_db_list_tables", args := some [] }],
         content := none, name := none },
       { tool_calls := [], content := some "Here are the tables", name := none }],
    failure := none }

/-- Witness for C3: an utterance triggering one (non-SQL) tool call and one
final message produces `processing, tool_call, message, completed` with one
terminal frame. -/
theorem streaming_frame_order_witness :
    wsLoop "u1" "t0" [Inbound.frame (some "show tables") runListTables] =
      turnFrames "u1" "show tables" "t0" runListTables ++ wsLoop "u1" "t0" [] ∧
    ∃ mid term,
      turnFrames "u1" "show tables" "t0" runListTables =
        Frame.processing "u1" "show tables" :: (mid ++ [term]) ∧
      (∀ f ∈ mid, isMidFrame f = true) ∧
      isTerminal term = true ∧
      (runListTables.failure = none →
        term = Frame.completed (interpret runListTables.events).sql_query "t0") ∧
      (∀ e, runListTables.failure = some e → term = Frame.error e) ∧
      (Frame.processing "u1" "show tables" :: (mid ++ [term])).countP isTerminal = 1 :=
  streaming_frame_order "u1" "t0" (some "show tables") runListTables [] (by decide)

/-- C4: an inbound frame whose query is empty or missing produces exactly one
error frame carrying `Query is required`, triggers no engine invocation, and
the loop continues with the next inbound message. -/
theorem empty_query_error_no_engine (uid ts : String) (q : Option String)
    (run : EngineRun) (rest : List Inbound) (h : q.getD "" = "") :
    wsLoop uid ts (Inbound.frame q run :: rest) =
      Frame.error errQueryRequired :: wsLoop uid ts rest ∧
    engineCalls uid (Inbound.frame q run :: rest) = engineCalls uid rest := by
  constructor
  · rw [wsLoop_frame, if_pos h]
    rfl
  · rw [engineCalls_frame, if_pos h]
    rfl

/-- Witness for C4: a frame with no query field, followed by a well-formed
one, yields the error frame and leaves the engine untouched for it. -/
theorem empty_query_error_no_engine_witness :
    wsLoop "u1" "t0"
        [Inbound.frame none { events := [], failure := none },
         Inbound.frame (some "hi") { events := [], failure := none }] =
      Frame.error errQueryRequired ::
        wsLoop "u1" "t0" [Inbound.frame (some "hi") { events := [], failure := none }] ∧
    engineCalls "u1"
        [Inbound.frame none { events := [], failure := none },
         Inbound.frame (some "hi") { events := [], failure := none }] =
      engineCalls "u1" [Inbound.frame (some "hi") { events := [], failure := none }] :=
  empty_query_error_no_engine "u1" "t0" none { events := [], failure := none }
    [Inbound.frame (some "hi") { events := [], failure := none }] rfl

/-- C9 counterexample: a malformed inbound frame (e.g. text that is not JSON)
is reported as a generic error frame, but the per-channel loop then ends:
a well-formed utterance queued after it is never served (no `processing`
frame, no engine call), so the channel does not remain open for subsequent
turns as the claim states. -/
theorem malformed_frame_closes_channel_cex :
    wsLoop "u1" "t0"
        [Inbound.malformed "Expecting value",
         Inbound.frame (some "list tables") { events := [], failure := none }] =
      [Frame.error "Expecting value"] ∧
    Frame.processing "u1" "list tables" ∉
      wsLoop "u1" "t0"
        [Inbound.malformed "Expecting value",
         Inbound.frame (some "list tables") { events := [], failure := none }] ∧
    engineCalls "u1"
        [Inbound.malformed "Expecting value",
         Inbound.frame (some "list tables") { events := [], failure := none }] = [] := by
  refine ⟨rfl, ?_, rfl⟩
  decide

/-- C9 (amended): an engine failure inside one turn is caught per turn — the
turn ends with an error frame and the loop keeps serving the remaining
inbound messages; a malformed inbound frame is caught only at the outermost
boundary, which reports one generic error frame and then ends the
per-channel loop. -/
theorem streaming_error_handling_amended (uid ts e : String) (q : Option String)
    (events : List Msg) (rest : List Inbound) (h : ¬ q.getD "" = "") :
    wsLoop uid ts (Inbound.frame q { events := events, failure := some e } :: rest) =
      (Frame.processing uid (q.getD "") ::
        (events.flatMap msgFrames ++ [Frame.error e])) ++ wsLoop uid ts rest ∧
    wsLoop uid ts (Inbound.malformed e :: rest) = [Frame.error e] := by
  constructor
  · rw [wsLoop_frame, if_neg h]
    rfl
  · rfl

/-- Witness for C9 (amended): a turn whose engine raises `boom` emits
`processing` then `error`, and the next utterance is still served. -/
theorem streaming_error_handling_amended_witness :
    wsLoop "u1" "t0"
        (Inbound.frame (some "q1") { events := [], failure := some "boom" } ::
          [Inbound.frame (some "q2") { events := [], failure := none }]) =
      (Frame.processing "u1" "q1" ::
        (([] : List Msg).flatMap msgFrames ++ [Frame.error "boom"])) ++
        wsLoop "u1" "t0" [Inbound.frame (some "q2") { events := [], failure := none }] ∧
    wsLoop "u1" "t0"
        (Inbound.malformed "boom" ::
          [Inbound.frame (some "q2") { events := [], failure := none }]) =
      [Frame.error "boom"] :=
  streaming_error_handling_amended "u1" "t0" "boom" (some "q1") []
    [Inbound.frame (some "q2") { events := [], failure := none }] (by decide)

/-- C5: a preference upsert with an empty user identifier or an empty
priority key fails as `InvalidArgument` with no storage write, and every
successful write had non-empty user, key and value.
Settled against the spec-modelled `update_user_priority` (see its doc
comment), since `sql_agent` is not among the sources. -/
theorem save_preference_validation (store : PrefStore)
    (request : PreferenceRequest) (now : String) :
    ((request.user_id = "" ∨ request.priority_key = "") →
      save_preference store request now =
        Except.error
          (PrefError.invalidArgument "user, key and value must be non-empty") ∧
      storeAfterSave store request now = store) ∧
    (∀ store2 response,
      save_preference store request now = Except.ok (store2, response) →
      ¬ request.user_id = "" ∧ ¬ request.priority_key = "" ∧
        ¬ request.priority_value = "") := by
  constructor
  · intro h
    have hbad : request.user_id = "" ∨ request.priority_key = "" ∨
        request.priority_value = "" := by
      rcases h with h | h
      · exact Or.inl h
      · exact Or.inr (Or.inl h)
    have herr : save_preference store request now =
        Except.error
          (PrefError.invalidArgument "user, key and value must be non-empty") := by
      unfold save_preference update_user_priority
      rw [if_pos hbad]
    refine ⟨herr, ?_⟩
    unfold storeAfterSave
    rw [herr]
  · intro store2 response hok
    have hgood : ¬ (request.user_id = "" ∨ request.priority_key = "" ∨
        request.priority_value = "") := by
      intro hbad
      unfold save_preference update_user_priority at hok
      rw [if_pos hbad] at hok
      exact absurd hok (by simp)
    push_neg at hgood
    exact hgood

/-- Witness for C5: an upsert with an empty user identifier fails as
`InvalidArgument` and leaves the (empty) store unchanged. -/
theorem save_preference_validation_witness :
    save_preference []
        { user_id := "", priority_key := "cost", priority_value := "low",
          context := none, feedback_text := none, source_query := none } "t0" =
      Except.error
        (PrefError.invalidArgument "user, key and value must be non-empty") ∧
    storeAfterSave []
        { user_id := "", priority_key := "cost", priority_value := "low",
          context := none, feedback_text := none, source_query := none } "t0" = [] :=
  (save_preference_validation []
    { user_id := "", priority_key := "cost", priority_value := "low",
      context := none, feedback_text := none, source_query := none } "t0").1
    (Or.inl rfl)

/-- C6: deleting all preferences of a user with N live records removes all N
and reports the count N; an immediate second call reports 0, and 0 is an
ordinary success value of the total function. -/
theorem delete_preferences_count (store : PrefStore) (uid : String) (N : Nat)
    (h : countForUser store uid = N) :
    (delete_preferences store uid).2.deleted_count = N ∧
    countForUser (delete_preferences store uid).1 uid = 0 ∧
    (delete_preferences (delete_preferences store uid).1 uid).2.deleted_count = 0 := by
  have hzero : countForUser (delete_preferences store uid).1 uid = 0 := by
    unfold countForUser delete_preferences
    dsimp only
    have hnil : (store.filter (fun r => ¬ r.user_id = uid)).filter
        (fun r => r.user_id = uid) = [] := by
      apply List.eq_nil_iff_forall_not_mem.mpr
      intro r hr
      have h1 := List.mem_filter.mp hr
      have h2 := List.mem_filter.mp h1.1
      exact absurd (of_decide_eq_true h1.2) (of_decide_eq_true h2.2)
    rw [hnil]
    rfl
  exact ⟨h, hzero, hzero⟩

/-- Witness for C6: a store with two records for `u1` and one for `u2`:
deleting `u1` reports 2, leaves no `u1` records, and a second call reports 0. -/
theorem delete_preferences_count_witness :
    (delete_preferences
        [{ user_id := "u1", priority_key := "cost", priority_value := "low",
           context := none, feedback_text := none, source_query := none,
           updated_at := "t1" },
         { user_id := "u2", priority_key := "cost", priority_value := "high",
           context := none, feedback_text := none, source_query := none,
           updated_at := "t2" },
         { user_id := "u1", priority_key := "coverage", priority_value := "high",
           context := none, feedback_text := none, source_query := none,
           updated_at := "t3" }] "u1").2.deleted_count = 2 ∧
    countForUser
      (delete_preferences
        [{ user_id := "u1", priority_key := "cost", priority_value := "low",
           context := none, feedback_text := none, source_query := none,
           updated_at := "t1" },
         { user_id := "u2", priority_key := "cost", priority_value := "high",
           context := none, feedback_text := none, source_query := none,
           updated_at := "t2" },
         { user_id := "u1", priority_key := "coverage", priority_value := "high",
           context := none, feedback_text := none, source_query := none,
           updated_at := "t3" }] "u1").1 "u1" = 0 ∧
    (delete_preferences
      (delete_preferences
        [{ user_id := "u1", priority_key := "cost", priority_value := "low",
           context := none, feedback_text := none, source_query := none,
           updated_at := "t1" },
         { user_id := "u2", priority_key := "cost", priority_value := "high",
           context := none, feedback_text := none, source_query := none,
           updated_at := "t2" },
         { user_id := "u1", priority_key := "coverage", priority_value := "high",
           context := none, feedback_text := none, source_query := none,
           updated_at := "t3" }] "u1").1 "u1").2.deleted_count = 0 :=
  delete_preferences_count
    [{ user_id := "u1", priority_key := "cost", priority_value := "low",
       context := none, feedback_text := none, source_query := none,
       updated_at := "t1" },
     { user_id := "u2", priority_key := "cost", priority_value := "high",
       context := none, feedback_text := none, source_query := none,
       updated_at := "t2" },
     { user_id := "u1", priority_key := "coverage", priority_value := "high",
       context := none, feedback_text := none, source_query := none,
       updated_at := "t3" }] "u1" 2 (by decide)

/-- C7 counterexample: a reset request that supplies the empty string as its
user id.  The claim says a supplied user id is echoed back; the handler's
`request.user_id or str(uuid.uuid4())` treats the empty string as falsy and
answers with the freshly generated id instead. -/
theorem clear_conversation_empty_user_cex :
    (clear_conversation { global_agent := some "agent", preferences := [] }
        (some "") "generated-uuid" "t0").2.new_user_id = "generated-uuid" ∧
    ¬ (clear_conversation { global_agent := some "agent", preferences := [] }
        (some "") "generated-uuid" "t0").2.new_user_id = "" :=
  ⟨rfl, by decide⟩

/-- C7 (amended): the reset operation is total (it has no failure outcome),
always clears the single shared engine instance regardless of the supplied
user id, leaves the preference store untouched, and answers with the supplied
user id when it is non-empty and a freshly generated one otherwise, plus a
timestamp. -/
theorem clear_conversation_effects (state : AppState) (userId : Option String)
    (freshId now : String) :
    (clear_conversation state userId freshId now).1.global_agent = none ∧
    (clear_conversation state userId freshId now).1.preferences =
      state.preferences ∧
    (clear_conversation state userId freshId now).2.new_user_id =
      (if userId.getD "" = "" then freshId else userId.getD "") ∧
    (clear_conversation state userId freshId now).2.timestamp = now :=
  ⟨rfl, rfl, rfl, rfl⟩
